import Mathlib

/-!
Verification of the transport layer of `m1kTCPClient`
(src/src/m1kTCPClient/m1kTCPClient.py).

The embedding models one call to `_query` (lines 71-118) as a pure function
over an abstract network: the network assigns to each attempt number an
outcome, which is either a transient error (`ConnectionRefusedError`,
`ConnectionResetError`, `socket.timeout` — the three exception classes the
code catches) or a successful connection delivering a raw character stream
(the bytes the server writes on that connection, decoded).  Observable side
effects — socket connections opened, `warnings.warn` calls, `time.sleep`
calls (each of `retry_delay` seconds), and `_query` invocations — are
tracked in an explicit `Effects` record.
-/

namespace M1K

/-- The three exception classes caught by `_query` (lines 100-105). -/
inductive TransientError where
  | connectionRefused
  | connectionReset
  | socketTimeout
deriving DecidableEq, Repr

/-- Outcome the network assigns to one connection attempt: either one of the
three caught transient exceptions, or a successful exchange in which the
server's reply stream (already decoded to characters) is `raw`. -/
inductive AttemptOutcome where
  | fail (e : TransientError)
  | reply (raw : List Char)
deriving DecidableEq, Repr

/-- An error raised out of `_query`: `RuntimeError(resp)` for an
ERROR-sentinel response (line 97), or the remembered transient error
re-raised after exhaustion (line 118). -/
inductive QueryError where
  | protocolError (resp : List Char)
  | transient (e : TransientError)
deriving DecidableEq, Repr

/-- What one call to `_query` does, viewed from the caller: it returns a
string, returns Python `None` (falling off the end of the function body),
or raises. -/
inductive QueryOutcome where
  | ret (resp : Option (List Char))
  | raised (e : QueryError)
deriving DecidableEq, Repr

/-- Observable side effects of one `_query` call: sockets opened
(line 87), warnings emitted (line 110), sleeps of `retry_delay` seconds
performed (line 115), and the query messages passed to `_query` itself
(recorded once per call, at entry). -/
structure Effects where
  connections : Nat
  warnings : Nat
  sleeps : Nat
  queries : List String
deriving DecidableEq, Repr

/-- `sf.readline()` on a file object whose newline is `term` (line 94):
consume characters up to and including the first occurrence of `term`;
at end of stream without a terminator, return everything read. -/
def readline (term : List Char) : List Char → List Char
  | [] => []
  | c :: rest =>
    if term.isPrefixOf (c :: rest) then term
    else c :: readline term rest

/-- Python `s.rstrip(chars)` (line 94): remove all trailing characters of
`s` that belong to the character set of `chars`. -/
def pyRstrip (s chars : List Char) : List Char :=
  ((s.reverse).dropWhile (fun c => decide (c ∈ chars))).reverse

/-- The literal sentinel prefix tested by `resp.startswith("ERROR")`
(line 96). -/
def errorSentinel : List Char := "ERROR".data

/-- The response line computed within one successful attempt (line 94):
`sf.readline().rstrip(self.TERMCHAR)`. -/
def attemptResp (term raw : List Char) : List Char :=
  pyRstrip (readline term raw) term

/-- The retry loop of `_query` (lines 85-118).  `remaining + 1` is the
number of loop iterations still to run (so `remaining = 0` means the
current attempt is the last, `attempt == self.retries` at line 107);
`attempt` is the 1-based attempt counter; fuel `0` means the `for` loop
is over, and since `err` (line 84) is only ever assigned on the last
attempt — every earlier iteration either returned, raised, or retried —
reaching the end of the loop with fuel that started at `0` leaves
`err = None` and the function falls through returning `None`. -/
def queryLoop (term : List Char) (net : Nat → AttemptOutcome) :
    Nat → Nat → Effects → QueryOutcome × Effects
  | 0, _, eff => (.ret none, eff)
  | remaining + 1, attempt, eff =>
    let eff1 : Effects := { eff with connections := eff.connections + 1 }
    match net attempt with
    | .reply raw =>
      let resp := attemptResp term raw
      if errorSentinel.isPrefixOf resp then
        (.raised (.protocolError resp), eff1)
      else
        (.ret (some resp), eff1)
    | .fail e =>
      if remaining = 0 then
        (.raised (.transient e), { eff1 with sleeps := eff1.sleeps + 1 })
      else
        queryLoop term net remaining (attempt + 1)
          { eff1 with warnings := eff1.warnings + 1, sleeps := eff1.sleeps + 1 }

/-- One call to `_query(msg)` (lines 71-118).  `retries` is an integer as
in Python; `range(1, retries + 1)` runs `max 0 retries` iterations, i.e.
`retries.toNat`.  The terminator used for framing is `term`
(`self.TERMCHAR`). -/
def _query (retries : Int) (term : List Char) (net : Nat → AttemptOutcome)
    (msg : String) : QueryOutcome × Effects :=
  queryLoop term net retries.toNat 1
    { connections := 0, warnings := 0, sleeps := 0, queries := [msg] }

/-- Python `str.encode()` (UTF-8), used at lines 37 and 64. -/
def encode (s : String) : List UInt8 :=
  s.toUTF8.toList

/-- The fields assigned by `__init__` (lines 34-40): connection parameters,
the terminator string, and its cached byte encoding. -/
structure ClientState where
  HOST : String
  PORT : Int
  _TERMCHAR : String
  _TERMCHAR_BYTES : List UInt8
  timeout : Int
  retries : Int
  retry_delay : Int
deriving DecidableEq, Repr

/-- The field assignments of `__init__` (lines 34-40), before the initial
`_query` call. -/
def initFields (HOST : String) (PORT : Int) (TERMCHAR : String)
    (timeout retries retry_delay : Int) : ClientState :=
  { HOST := HOST, PORT := PORT, _TERMCHAR := TERMCHAR,
    _TERMCHAR_BYTES := encode TERMCHAR, timeout := timeout,
    retries := retries, retry_delay := retry_delay }

/-- The `TERMCHAR` property setter (lines 60-64): set `_TERMCHAR` and
refresh `_TERMCHAR_BYTES`. -/
def TERMCHAR_set (st : ClientState) (TERMCHAR : String) : ClientState :=
  { st with _TERMCHAR := TERMCHAR, _TERMCHAR_BYTES := encode TERMCHAR }

/-- The consistency invariant between the terminator string and its cached
byte encoding. -/
def termcharInvariant (st : ClientState) : Prop :=
  st._TERMCHAR_BYTES = encode st._TERMCHAR

/-- The message `f"plf {plf}"` sent by `__init__` (line 42); the power line
frequency is taken as an integer (its textual rendering is all that
matters to the transport). -/
def plfCmd (plf : Int) : String :=
  "plf " ++ toString plf

/-- `__init__` (lines 12-42): assign the fields, then perform one
`_query(f"plf {plf}")`.  If that query raises, construction raises the
same error and no client object is produced; otherwise the constructed
object is returned. -/
def m1k_init (HOST : String) (PORT : Int) (TERMCHAR : String)
    (timeout retries retry_delay plf : Int) (net : Nat → AttemptOutcome) :
    Except QueryError ClientState × Effects :=
  let st := initFields HOST PORT TERMCHAR timeout retries retry_delay
  match _query retries TERMCHAR.data net (plfCmd plf) with
  | (.ret _, eff) => (.ok st, eff)
  | (.raised e, eff) => (.error e, eff)

/-- Python `int(b)` on a bool (lines 269, 275, 351). -/
def pyIntOfBool (b : Bool) : Nat :=
  if b then 1 else 0

/-- Python `str(x)` where `x` is an int or `None` (lines 269, 272, 275). -/
def pyStrOfOptInt : Option Int → String
  | none => "None"
  | some n => toString n

/-- `configure_channel_settings` (lines 247-275), modelled as the list of
messages it passes to `_query`, in order.  Python `None` arguments are
`none`; the guard on each block is `x is not None`.  The `v_range`
argument (2.5 or 5) is interpolated verbatim into the message, so it is
modelled by its textual rendering. -/
def configure_channel_settings (channel : Option Int)
    (four_wire : Option Bool) (v_range : Option String)
    (default : Option Bool) : List String :=
  (match four_wire with
   | some fw => ["fw " ++ toString (pyIntOfBool fw) ++ " " ++ pyStrOfOptInt channel]
   | none => []) ++
  (match v_range with
   | some vr => ["vr " ++ vr ++ " " ++ pyStrOfOptInt channel]
   | none => []) ++
  (match default with
   | some d => ["def " ++ toString (pyIntOfBool d) ++ " " ++ pyStrOfOptInt channel]
   | none => [])

/-- The `channels` argument of `measure` (line 325): a list of ints, a
single int, or `None`. -/
inductive Channels where
  | noneCh
  | one (n : Int)
  | many (ns : List Int)
deriving DecidableEq, Repr

/-- Python `str(channels)` for the three accepted shapes. -/
def pyStrChannels : Channels → String
  | .noneCh => "None"
  | .one n => toString n
  | .many ns => "[" ++ String.intercalate ", " (ns.map toString) ++ "]"

/-- The message built by `measure` (lines 349-352):
`f"meas {str(channels).replace(' ', '')} {measurement} {int(allow_chunking)}"`. -/
def measCmd (channels : Channels) (measurement : String)
    (allow_chunking : Bool) : String :=
  "meas " ++ (pyStrChannels channels).replace " " "" ++ " " ++ measurement
    ++ " " ++ toString (pyIntOfBool allow_chunking)

/-- Result of `measure` as seen by its caller: a returned value
(`Option Lit`, `none` being Python `None`), a propagated query error, or
the `TypeError` that `len(answer)` would raise if `_query` returned
`None`. -/
inductive MeasResult (Lit : Type) where
  | ret (r : Option Lit)
  | raised (e : QueryError)
  | typeError
deriving DecidableEq, Repr

/-- `measure` (lines 325-357): perform the query; a non-empty answer is
parsed with `ast.literal_eval` (out of scope here, abstracted as the
function `literal_eval`), an empty answer yields `None`. -/
def measure {Lit : Type} (literal_eval : List Char → Lit) (retries : Int)
    (term : List Char) (net : Nat → AttemptOutcome) (channels : Channels)
    (measurement : String) (allow_chunking : Bool) :
    MeasResult Lit × Effects :=
  match _query retries term net (measCmd channels measurement allow_chunking) with
  | (.ret (some answer), eff) =>
    (.ret (if 0 < answer.length then some (literal_eval answer) else none), eff)
  | (.ret none, eff) => (.typeError, eff)
  | (.raised e, eff) => (.raised e, eff)

/-! ## General lemmas about the retry loop -/

/-- The loop never touches the record of `_query` invocations. -/
theorem queryLoop_queries (t : List Char) (net : Nat → AttemptOutcome) :
    ∀ (n attempt : Nat) (eff : Effects),
    ((queryLoop t net n attempt eff).2).queries = eff.queries := by
  intro n
  induction n with
  | zero => intro attempt eff; simp [queryLoop]
  | succ m ih =>
    intro attempt eff
    rw [queryLoop]
    match hn : net attempt with
    | .reply raw =>
      by_cases herr : errorSentinel.isPrefixOf (attemptResp t raw)
      · simp [herr]
      · simp [herr]
    | .fail e =>
      by_cases hm : m = 0
      · simp [hm]
      · simp [hm, ih]

/-- When every attempt fails with a transient error, the loop runs all its
iterations, raises the error of the last attempt, and accumulates one
connection and one sleep per attempt but a warning only on non-final
attempts. -/
theorem queryLoop_allFail (t : List Char) (net : Nat → AttemptOutcome)
    (f : Nat → TransientError) (hnet : ∀ a, net a = .fail (f a)) :
    ∀ (remaining attempt : Nat) (eff : Effects),
    queryLoop t net (remaining + 1) attempt eff =
      (.raised (.transient (f (attempt + remaining))),
       { connections := eff.connections + remaining + 1,
         warnings := eff.warnings + remaining,
         sleeps := eff.sleeps + remaining + 1,
         queries := eff.queries }) := by
  intro remaining
  induction remaining with
  | zero => intro attempt eff; simp [queryLoop, hnet attempt]
  | succ m ih =>
    intro attempt eff
    rw [queryLoop]
    simp only [hnet attempt, Nat.succ_ne_zero, if_false, ih (attempt + 1)]
    have h1 : attempt + 1 + m = attempt + (m + 1) := by omega
    rw [h1]
    simp only [Prod.mk.injEq, Effects.mk.injEq, true_and]
    refine ⟨by omega, by omega, by omega, by trivial⟩

/-- With at least one iteration of fuel, the loop settles on a success
return, a protocol error, or a transient error — never the fall-through
`None`. -/
theorem queryLoop_outcomes (t : List Char) (net : Nat → AttemptOutcome) :
    ∀ (remaining attempt : Nat) (eff : Effects),
    (∃ r, (queryLoop t net (remaining + 1) attempt eff).1 = .ret (some r)) ∨
    (∃ r, (queryLoop t net (remaining + 1) attempt eff).1 =
      .raised (.protocolError r)) ∨
    (∃ e, (queryLoop t net (remaining + 1) attempt eff).1 =
      .raised (.transient e)) := by
  intro remaining
  induction remaining with
  | zero =>
    intro attempt eff
    rw [queryLoop]
    match hn : net attempt with
    | .reply raw =>
      by_cases herr : errorSentinel.isPrefixOf (attemptResp t raw)
      · exact Or.inr (Or.inl ⟨attemptResp t raw, by simp [herr]⟩)
      · exact Or.inl ⟨attemptResp t raw, by simp [herr]⟩
    | .fail e =>
      exact Or.inr (Or.inr ⟨e, by simp⟩)
  | succ m ih =>
    intro attempt eff
    rw [queryLoop]
    match hn : net attempt with
    | .reply raw =>
      by_cases herr : errorSentinel.isPrefixOf (attemptResp t raw)
      · exact Or.inr (Or.inl ⟨attemptResp t raw, by simp [herr]⟩)
      · exact Or.inl ⟨attemptResp t raw, by simp [herr]⟩
    | .fail e =>
      simp only [Nat.succ_ne_zero, if_false]
      exact ih (attempt + 1) _

/-- A successful, non-ERROR reply on the current attempt returns the
response line at once, with only this attempt's connection added. -/
theorem queryLoop_first_reply_success (t : List Char)
    (net : Nat → AttemptOutcome) (m attempt : Nat) (eff : Effects)
    (raw : List Char) (hnet : net attempt = .reply raw)
    (herr : errorSentinel.isPrefixOf (attemptResp t raw) = false) :
    queryLoop t net (m + 1) attempt eff =
      (.ret (some (attemptResp t raw)),
       { eff with connections := eff.connections + 1 }) := by
  rw [queryLoop]
  simp [hnet, herr]

/-- The record of `_query` invocations holds exactly the one message of
this call. -/
theorem _query_queries (retries : Int) (t : List Char)
    (net : Nat → AttemptOutcome) (msg : String) :
    ((_query retries t net msg).2).queries = [msg] := by
  rw [_query, queryLoop_queries]

/-! ## Framing lemmas -/

/-- Dropping over an append whose first part is all dropped. -/
theorem dropWhile_append_of_all {α : Type} (p : α → Bool) (l1 l2 : List α)
    (h : ∀ a ∈ l1, p a = true) :
    List.dropWhile p (l1 ++ l2) = List.dropWhile p l2 := by
  induction l1 with
  | nil => rfl
  | cons a l ih =>
    rw [List.cons_append, List.dropWhile_cons_of_pos (h a (by simp))]
    exact ih (fun x hx => h x (by simp [hx]))

/-- `readline` consumes a payload sharing no character with the terminator,
plus the terminator itself, in full. -/
theorem readline_append_of_disjoint (t p : List Char) (ht : t ≠ [])
    (hdisj : ∀ c ∈ p, c ∉ t) : readline t (p ++ t) = p ++ t := by
  induction p with
  | nil =>
    rw [List.nil_append]
    match t, ht with
    | c :: t2, _ =>
      have hself : (c :: t2).isPrefixOf (c :: t2) = true := by
        rw [List.isPrefixOf_iff_prefix]
      rw [readline, hself]
      simp
  | cons c p2 ih =>
    have hguard : t.isPrefixOf (c :: (p2 ++ t)) = false := by
      rw [Bool.eq_false_iff]
      intro hpre
      rw [List.isPrefixOf_iff_prefix] at hpre
      match t, ht, hpre with
      | d :: t2, _, hpre =>
        rw [List.cons_prefix_cons] at hpre
        exact hdisj c (by simp) (by simp [hpre.1])
    rw [List.cons_append, readline, hguard]
    simp only [Bool.false_eq_true, if_false, List.cons.injEq, true_and]
    exact ih (fun x hx => hdisj x (by simp [hx]))

/-- `rstrip` removes exactly the appended terminator when the payload
shares no character with it. -/
theorem pyRstrip_append_of_disjoint (p t : List Char)
    (hdisj : ∀ c ∈ p, c ∉ t) : pyRstrip (p ++ t) t = p := by
  rw [pyRstrip, List.reverse_append,
    dropWhile_append_of_all _ t.reverse p.reverse
      (by intro a ha; simp only [List.mem_reverse] at ha; simp [ha])]
  cases hp : p.reverse with
  | nil =>
    have : p = [] := by simpa using congrArg List.reverse hp
    simp [this]
  | cons a l =>
    have ha : a ∈ p := by
      rw [← List.mem_reverse, hp]
      simp
    rw [List.dropWhile_cons_of_neg (by simp [hdisj a ha]), ← hp,
      List.reverse_reverse]

/-- The response line computed from a scripted payload disjoint from the
terminator is exactly the payload. -/
theorem attemptResp_of_disjoint (t p : List Char) (ht : t ≠ [])
    (hdisj : ∀ c ∈ p, c ∉ t) : attemptResp t (p ++ t) = p := by
  rw [attemptResp, readline_append_of_disjoint t p ht hdisj,
    pyRstrip_append_of_disjoint p t hdisj]

/-! ## Claim theorems (first batch) -/

/-- C2: a response line beginning with the literal prefix "ERROR" makes the
call fail at once with `RuntimeError(resp)` carrying the full response
text: whatever the attempt number, however many attempts remain and
whatever effects have accumulated, the only additional effect is the one
connection of this attempt — no further connection, no warning, and no
sleep. -/
theorem error_sentinel_fails_immediately (t : List Char)
    (net : Nat → AttemptOutcome) (remaining attempt : Nat) (eff : Effects)
    (raw : List Char) (hnet : net attempt = .reply raw)
    (herr : errorSentinel.isPrefixOf (attemptResp t raw) = true) :
    queryLoop t net (remaining + 1) attempt eff =
      (.raised (.protocolError (attemptResp t raw)),
       { eff with connections := eff.connections + 1 }) := by
  rw [queryLoop]
  simp [hnet, herr]

theorem error_sentinel_fails_immediately_witness :
    queryLoop "\n".data (fun _ => .reply "ERROR bad\n".data) 3 1
        { connections := 0, warnings := 0, sleeps := 0, queries := ["cmd"] } =
      (.raised (.protocolError "ERROR bad".data),
       { connections := 1, warnings := 0, sleeps := 0, queries := ["cmd"] }) := by
  have h := error_sentinel_fails_immediately "\n".data
    (fun _ => .reply "ERROR bad\n".data) 2 1
    { connections := 0, warnings := 0, sleeps := 0, queries := ["cmd"] }
    "ERROR bad\n".data rfl (by decide)
  simpa [show attemptResp "\n".data "ERROR bad\n".data = "ERROR bad".data
    from by decide] using h

/-- C3: when every attempt raises a transient network error, `_query` makes
exactly `retries` connection attempts and then raises the transient error
produced by the last attempt (attempt number `retries`), not the first. -/
theorem all_transient_exhausts_with_last_error (retries : Int)
    (t : List Char) (net : Nat → AttemptOutcome) (msg : String)
    (f : Nat → TransientError) (h1 : 1 ≤ retries)
    (hnet : ∀ a, net a = .fail (f a)) :
    (_query retries t net msg).1 = .raised (.transient (f retries.toNat)) ∧
      ((_query retries t net msg).2).connections = retries.toNat := by
  obtain ⟨m, hm⟩ : ∃ m, retries.toNat = m + 1 := by
    refine ⟨retries.toNat - 1, ?_⟩
    omega
  rw [_query, hm, queryLoop_allFail t net f hnet]
  constructor
  · have : 1 + m = m + 1 := by omega
    rw [this]
  · simp

theorem all_transient_exhausts_with_last_error_witness :
    (_query 2 "\n".data
        (fun a => .fail (if a = 1 then .connectionRefused else .socketTimeout))
        "cmd").1 = .raised (.transient .socketTimeout) ∧
      ((_query 2 "\n".data
        (fun a => .fail (if a = 1 then .connectionRefused else .socketTimeout))
        "cmd").2).connections = 2 := by
  have h := all_transient_exhausts_with_last_error 2 "\n".data
    (fun a => .fail (if a = 1 then .connectionRefused else .socketTimeout))
    "cmd" (fun a => if a = 1 then .connectionRefused else .socketTimeout)
    (by decide) (fun a => rfl)
  simpa using h

/-- C9: with a zero or negative retry count, `range(1, retries + 1)` is
empty, so `_query` opens no connection, emits no warning, never sleeps,
and falls off the end of the function returning `None`. -/
theorem nonpositive_retries_returns_none (retries : Int) (t : List Char)
    (net : Nat → AttemptOutcome) (msg : String) (h : retries ≤ 0) :
    _query retries t net msg =
      (.ret none,
       { connections := 0, warnings := 0, sleeps := 0, queries := [msg] }) := by
  have hz : retries.toNat = 0 := Int.toNat_of_nonpos h
  rw [_query, hz, queryLoop]

theorem nonpositive_retries_returns_none_witness :
    _query (-1) "\n".data (fun _ => .reply "ok\n".data) "cmd" =
      (.ret none,
       { connections := 0, warnings := 0, sleeps := 0, queries := ["cmd"] }) :=
  nonpositive_retries_returns_none (-1) "\n".data
    (fun _ => .reply "ok\n".data) "cmd" (by decide)

/-- C10: `configure_channel_settings` guards the reset-to-default block
with `default is not None`, but `default` is a boolean defaulting to
`False`; hence for every boolean `default` the "def" command is among the
messages sent, and at least one query is always issued. -/
theorem configure_default_always_queries (channel : Option Int)
    (four_wire : Option Bool) (v_range : Option String) (b : Bool) :
    ("def " ++ toString (pyIntOfBool b) ++ " " ++ pyStrOfOptInt channel)
        ∈ configure_channel_settings channel four_wire v_range (some b) ∧
      configure_channel_settings channel four_wire v_range (some b) ≠ [] := by
  constructor
  · simp [configure_channel_settings]
  · simp [configure_channel_settings]

/-- C1 (counterexample): the claim fails for a scripted payload that itself
ends in a terminator character.  With terminator `"\n"` and scripted reply
`"abc\n"` (wire stream `"abc\n\n"`), `_query` returns `"abc"`: `readline`
stops at the first terminator and `rstrip` removes every trailing
terminator-set character, not just the one appended terminator. -/
theorem rstrip_strips_payload_trailing_terminator :
    (_query 3 "\n".data (fun _ => .reply "abc\n\n".data) "cmd").1 =
        .ret (some "abc".data) ∧
      "abc".data ≠ "abc\n".data := by
  constructor
  · decide
  · decide

/-- C1 (amended): for every scripted reply payload that contains no
character of the (non-empty) terminator and does not begin with the ERROR
sentinel, `_query` returns exactly that payload, the trailing terminator
stripped.  (A payload ending in terminator characters has those trailing
characters stripped as well, by `rstrip` semantics — see the
counterexample.) -/
theorem query_returns_scripted_reply (retries : Int) (t p : List Char)
    (net : Nat → AttemptOutcome) (msg : String) (h1 : 1 ≤ retries)
    (ht : t ≠ []) (hdisj : ∀ c ∈ p, c ∉ t)
    (herr : errorSentinel.isPrefixOf p = false)
    (hnet : net 1 = .reply (p ++ t)) :
    (_query retries t net msg).1 = .ret (some p) := by
  obtain ⟨m, hm⟩ : ∃ m, retries.toNat = m + 1 := ⟨retries.toNat - 1, by omega⟩
  have hresp := attemptResp_of_disjoint t p ht hdisj
  rw [_query, hm, queryLoop_first_reply_success t net m 1 _ (p ++ t) hnet
    (by rw [hresp, herr]), hresp]

theorem query_returns_scripted_reply_witness :
    (_query 3 "\n".data (fun _ => .reply "hello world\n".data) "cmd").1 =
      .ret (some "hello world".data) :=
  query_returns_scripted_reply 3 "\n".data "hello world".data
    (fun _ => .reply "hello world\n".data) "cmd" (by decide) (by decide)
    (by decide) (by decide) rfl

/-- C4: with `retries ≥ 1`, every `_query` call settles on exactly one of
the three outcomes — a success return, an immediate ERROR-sentinel
protocol error, or an exhausted-retries transient error; it never falls
through returning `None`, and the three forms are distinct constructors,
so at most one can hold. -/
theorem query_has_exactly_one_outcome (retries : Int) (t : List Char)
    (net : Nat → AttemptOutcome) (msg : String) (h1 : 1 ≤ retries) :
    (∃ r, (_query retries t net msg).1 = .ret (some r)) ∨
    (∃ r, (_query retries t net msg).1 = .raised (.protocolError r)) ∨
    (∃ e, (_query retries t net msg).1 = .raised (.transient e)) := by
  obtain ⟨m, hm⟩ : ∃ m, retries.toNat = m + 1 := ⟨retries.toNat - 1, by omega⟩
  rw [_query, hm]
  exact queryLoop_outcomes t net m 1 _

theorem query_has_exactly_one_outcome_witness :
    (∃ r, (_query 1 "\n".data (fun _ => .reply "ok\n".data) "cmd").1 =
      .ret (some r)) ∨
    (∃ r, (_query 1 "\n".data (fun _ => .reply "ok\n".data) "cmd").1 =
      .raised (.protocolError r)) ∨
    (∃ e, (_query 1 "\n".data (fun _ => .reply "ok\n".data) "cmd").1 =
      .raised (.transient e)) :=
  query_has_exactly_one_outcome 1 "\n".data (fun _ => .reply "ok\n".data)
    "cmd" (by decide)

/-- C5: the code violates the claim.  `time.sleep(self.retry_delay)`
(line 115) sits outside the warn/remember branch (lines 107-113), so a
sleep happens after every transiently-failed attempt, including the final
one, just before the remembered error is raised.  With `retries = 2` and
every attempt refused, two sleeps elapse where the claim requires
`retries - 1 = 1`. -/
theorem sleep_after_final_attempt_eval :
    ((_query 2 "\n".data (fun _ => .fail .connectionRefused) "cmd").2).sleeps
        = 2 ∧
      ((_query 2 "\n".data (fun _ => .fail .connectionRefused)
        "cmd").2).warnings = 1 := by
  constructor
  · decide
  · decide

/-- C6: the cached byte-encoded terminator equals the byte encoding of the
terminator string right after the constructor's field assignments, and
after every `TERMCHAR` setter call from any prior state. -/
theorem termchar_bytes_consistent :
    (∀ (HOST : String) (PORT : Int) (TERMCHAR : String)
      (timeout retries retry_delay : Int),
      termcharInvariant
        (initFields HOST PORT TERMCHAR timeout retries retry_delay)) ∧
    (∀ (st : ClientState) (TERMCHAR : String),
      termcharInvariant (TERMCHAR_set st TERMCHAR)) :=
  ⟨fun _ _ _ _ _ _ => rfl, fun _ _ => rfl⟩

/-- C7: construction performs exactly one `_query`, with message
`f"plf {plf}"`; when that query raises, construction propagates the same
error and produces no client object, and when it returns, construction
yields the object with the assigned fields. -/
theorem init_pushes_plf_once_and_propagates (HOST : String) (PORT : Int)
    (TERMCHAR : String) (timeout retries retry_delay plf : Int)
    (net : Nat → AttemptOutcome) :
    ((m1k_init HOST PORT TERMCHAR timeout retries retry_delay plf
        net).2).queries = [plfCmd plf] ∧
      (∀ e, (_query retries TERMCHAR.data net (plfCmd plf)).1 = .raised e →
        (m1k_init HOST PORT TERMCHAR timeout retries retry_delay plf
          net).1 = .error e) ∧
      (∀ r, (_query retries TERMCHAR.data net (plfCmd plf)).1 = .ret r →
        (m1k_init HOST PORT TERMCHAR timeout retries retry_delay plf
          net).1 =
          .ok (initFields HOST PORT TERMCHAR timeout retries retry_delay)) := by
  have hqq := _query_queries retries TERMCHAR.data net (plfCmd plf)
  rcases hq : _query retries TERMCHAR.data net (plfCmd plf) with ⟨q, eff⟩
  rw [hq] at hqq
  refine ⟨?_, ?_, ?_⟩
  · rw [m1k_init, hq]
    cases q with
    | ret r => exact hqq
    | raised e => exact hqq
  · intro e he
    simp only at he
    subst he
    simp [m1k_init, hq]
  · intro r hr
    simp only at hr
    subst hr
    simp [m1k_init, hq]

theorem init_pushes_plf_once_and_propagates_witness :
    (m1k_init "127.0.0.1" 20101 "\n" 30 1 5 50
        (fun _ => .fail .connectionRefused)).1 =
      .error (.transient .connectionRefused) :=
  (init_pushes_plf_once_and_propagates "127.0.0.1" 20101 "\n" 30 1 5 50
    (fun _ => .fail .connectionRefused)).2.1
    (.transient .connectionRefused) (by decide)

/-- C8: a zero-length line before the terminator is returned by `_query`
as the empty string — it does not carry the ERROR sentinel, so it is never
classified as a protocol error — and `measure` maps that empty answer to
`None` instead of calling `ast.literal_eval` on it. -/
theorem empty_reply_success_and_measure_none {Lit : Type}
    (literal_eval : List Char → Lit) (retries : Int) (t : List Char)
    (net : Nat → AttemptOutcome) (channels : Channels)
    (measurement : String) (allow_chunking : Bool) (h1 : 1 ≤ retries)
    (ht : t ≠ [])
    (hnet : net 1 = .reply t) :
    (_query retries t net
        (measCmd channels measurement allow_chunking)).1 =
        .ret (some []) ∧
      errorSentinel.isPrefixOf ([] : List Char) = false ∧
      (measure literal_eval retries t net channels measurement
        allow_chunking).1 = .ret none := by
  obtain ⟨m, hm⟩ : ∃ m, retries.toNat = m + 1 := ⟨retries.toNat - 1, by omega⟩
  have hresp : attemptResp t t = [] := by
    have := attemptResp_of_disjoint t [] ht (by simp)
    simpa using this
  have hq : _query retries t net (measCmd channels measurement allow_chunking) =
      (.ret (some []),
       { connections := 1, warnings := 0, sleeps := 0,
         queries := [measCmd channels measurement allow_chunking] }) := by
    rw [_query, hm, queryLoop_first_reply_success t net m 1 _ t hnet
      (by rw [hresp]; decide), hresp]
  refine ⟨by rw [hq], by decide, ?_⟩
  simp [measure, hq]

theorem empty_reply_success_and_measure_none_witness :
    (_query 1 "\n".data (fun _ => .reply "\n".data)
        (measCmd .noneCh "dc" false)).1 = .ret (some []) ∧
      errorSentinel.isPrefixOf ([] : List Char) = false ∧
      (measure (fun l => l.length) 1 "\n".data (fun _ => .reply "\n".data)
        .noneCh "dc" false).1 = .ret none :=
  empty_reply_success_and_measure_none (fun l => l.length) 1 "\n".data
    (fun _ => .reply "\n".data) .noneCh "dc" false (by decide) (by decide) rfl

end M1K
